import Mathlib

/-!
Verification of the Voice Session Orchestrator of the mitra-ai backend.

This file shallowly embeds the code of
`server/services/live_voice_service.py` (class `LiveVoiceService`) and
`server/routers/voice.py` (the WebSocket endpoint and its message handler)
and proves, or refutes, the behavioural claims of the specification.

Modelling conventions:
* `datetime.utcnow()` is modelled by an explicit `Nat` timestamp argument
  threaded into every operation that reads the clock.
* The registry `self.active_sessions : Dict[str, ...]` is an association
  list with unique keys; `del` removes every binding of the key, which
  coincides with Python's behaviour on a dict (keys are unique).
* Every network side effect (a `websocket.send_json`, a close of the client
  WebSocket, a close of the engine connection, a send into the Live API
  connection) is recorded in an event trace.  `send_json` on a WebSocket
  that the server has already closed raises in Python; here it reports
  failure and records no event, and the caller's `except` path is followed.
* Object mutation is made explicit: the Python code mutates a shared
  `VoiceSession` object; operations here return the updated service state,
  and `end_voice_session` additionally returns the final value of the
  mutated `VoiceSession` (the value observable through references held by
  callers such as the router), since cleanup removes it from the registry.
-/

/-- States of `VoiceSessionState` in `server/models/wellness.py`. -/
inductive VoiceSessionState where
  | connecting
  | connected
  | listening
  | processing
  | talking
  | error
  | ended
deriving DecidableEq, Repr

/-- One entry of `VoiceSession.transcript`: the dict
`{"role": role, "text": text, "timestamp": ...}` built in
`_handle_transcript`. -/
structure TranscriptEntry where
  role : String
  text : String
  timestamp : Nat
deriving DecidableEq, Repr

/-- The `VoiceSession` pydantic model of `server/models/wellness.py`. -/
structure VoiceSession where
  session_id : String
  user_id : String
  problem_category : Option String
  state : VoiceSessionState
  voice_option : String
  language : String
  created_at : Nat
  connected_at : Option Nat
  ended_at : Option Nat
  total_duration_seconds : Int
  transcript : List TranscriptEntry
deriving DecidableEq, Repr

/-- `UserPreferences` of `server/models/user.py`, restricted to the fields
the voice service reads. -/
structure UserPreferences where
  language : String
  preferred_voice : String
  mitra_name : String
deriving DecidableEq, Repr

/-- `UserProfile` of `server/models/user.py`, restricted to the fields the
voice service reads; `preferences` may be absent. -/
structure UserProfile where
  display_name : Option String
  preferences : Option UserPreferences
deriving DecidableEq, Repr

/-- The per-session dict stored in `LiveVoiceService.active_sessions`
(built in `create_voice_session`, lines 74–83).  Connection objects are
modelled by `Nat` handles; `live_session` and `live_connection` are set
together in `start_live_conversation`. -/
structure SessionData where
  session : VoiceSession
  user_profile : Option UserProfile
  live_session : Option Nat
  live_connection : Option Nat
  websocket : Option Nat
  transcript : List TranscriptEntry
  is_speaking : Bool
  conversation_started : Bool
deriving DecidableEq, Repr

/-- Observable network side effects, in program order. -/
inductive Event where
  /-- A `websocket.send_json` to client WebSocket `ws` that succeeded,
  with the `type` field of the payload and a distinguishing detail
  (the error message, or `""`). -/
  | sent (ws : Nat) (msgType : String) (detail : String)
  /-- The server closed client WebSocket `ws`. -/
  | wsClosed (ws : Nat)
  /-- The engine-side Live API connection `h` was closed
  (`live_connection.__aexit__`). -/
  | engineClosed (h : Nat)
  /-- A message was sent into the engine-side Live API connection `h`
  (`send_audio` / `send_text`). -/
  | toEngine (h : Nat) (what : String)
deriving DecidableEq, Repr

/-- The state of one `LiveVoiceService` instance plus the world it can
observe: the registry, the set of client WebSockets the server has closed,
the session ids for which a listen-loop task was spawned
(`asyncio.create_task(self._handle_live_session(...))`), and the event
trace. -/
structure Svc where
  active_sessions : List (String × SessionData)
  closedWs : List Nat
  spawnedLoops : List String
  trace : List Event
deriving DecidableEq, Repr

/-- Dictionary lookup `self.active_sessions.get(session_id)`. -/
def lookupSession : List (String × SessionData) → String → Option SessionData
  | [], _ => none
  | (k, v) :: rest, sid => if k = sid then some v else lookupSession rest sid

/-- Dictionary update `self.active_sessions[session_id] = ...` for a key
already present (replaces the binding). -/
def setSessionData (sid : String) (sd : SessionData) :
    List (String × SessionData) → List (String × SessionData)
  | [] => []
  | (k, v) :: rest =>
      if k = sid then (k, sd) :: rest else (k, v) :: setSessionData sid sd rest

/-- Dictionary deletion `del self.active_sessions[session_id]`; keys are
unique in a Python dict, so removing every binding of `sid` coincides. -/
def removeSession (sid : String) :
    List (String × SessionData) → List (String × SessionData)
  | [] => []
  | (k, v) :: rest =>
      if k = sid then removeSession sid rest else (k, v) :: removeSession sid rest

theorem lookupSession_set (l : List (String × SessionData)) (sid : String)
    (sd : SessionData) :
    lookupSession (setSessionData sid sd l) sid =
      (lookupSession l sid).map (fun _ => sd) := by
  induction l with
  | nil => rfl
  | cons hd tl ih =>
    obtain ⟨k, v⟩ := hd
    by_cases hk : k = sid
    · simp [setSessionData, lookupSession, hk]
    · simp [setSessionData, lookupSession, hk, ih]

theorem lookupSession_remove (l : List (String × SessionData)) (sid : String) :
    lookupSession (removeSession sid l) sid = none := by
  induction l with
  | nil => rfl
  | cons hd tl ih =>
    obtain ⟨k, v⟩ := hd
    by_cases hk : k = sid
    · simp [removeSession, hk, ih]
    · simp [removeSession, lookupSession, hk, ih]

/-- `websocket.send_json(payload)` on an optional WebSocket handle.
Returns the new state and whether the send succeeded.  Sending on `none`
(`session_data["websocket"]` still unset) or on a WebSocket the server has
already closed raises in Python; here it reports `false` and the caller's
`except` path is followed. -/
def sendJson (ws : Option Nat) (msgType detail : String) (s : Svc) :
    Svc × Bool :=
  match ws with
  | none => (s, false)
  | some w =>
      if w ∈ s.closedWs then (s, false)
      else ({ s with trace := s.trace ++ [Event.sent w msgType detail] }, true)

/-- `await websocket.close()` issued by the server.  A second close of the
same WebSocket raises and every call site either guards or swallows it, so
it records no event. -/
def closeWs (w : Nat) (s : Svc) : Svc :=
  if w ∈ s.closedWs then s
  else { s with trace := s.trace ++ [Event.wsClosed w],
                closedWs := w :: s.closedWs }

/-- `LiveVoiceService._update_session_state` (lines 496–526): if the session
id is registered, unconditionally overwrite `voice_session.state` with
`new_state`, then send a `state_change` event to the stored WebSocket; a
failure of that send is swallowed by the method's own `except` (the state
write has already happened). -/
def update_session_state (sid : String) (new_state : VoiceSessionState)
    (s : Svc) : Svc :=
  match lookupSession s.active_sessions sid with
  | none => s
  | some sd =>
      let sd' := { sd with session := { sd.session with state := new_state } }
      let s1 :=
        { s with
          active_sessions := setSessionData sid sd' s.active_sessions }
      (sendJson sd.websocket "state_change" "" s1).1

/-- `LiveVoiceService._handle_transcript` (lines 414–462): if the session id
is registered and `is_final`, append the entry to both the runtime
transcript buffer and `VoiceSession.transcript`; then send the `transcript`
event to the client; if that send succeeds, update the state to PROCESSING
for a final `user` fragment or LISTENING for a final `assistant` fragment
(a failed send skips the state update — the outer `except` catches it after
the append already happened). -/
def handle_transcript (sid role text : String) (is_final : Bool) (tNow : Nat)
    (s : Svc) : Svc :=
  match lookupSession s.active_sessions sid with
  | none => s
  | some sd =>
      let entry : TranscriptEntry := ⟨role, text, tNow⟩
      let sdApp : SessionData :=
        { sd with
          transcript := sd.transcript ++ [entry],
          session := { sd.session with
            transcript := sd.session.transcript ++ [entry] } }
      let s1 :=
        if is_final then
          { s with
            active_sessions := setSessionData sid sdApp s.active_sessions }
        else s
      let r := sendJson sd.websocket "transcript" text s1
      if r.2 then
        if role = "user" ∧ is_final then
          update_session_state sid VoiceSessionState.processing r.1
        else if role = "assistant" ∧ is_final then
          update_session_state sid VoiceSessionState.listening r.1
        else r.1
      else r.1

/-- The shapes of a message yielded by `live_session.receive()` that
`_process_live_message` distinguishes.  The code's four branches pair up:
an object with non-`None` `.audio` and a raw `bytes` value are both audio
output, an object with non-`None` `.text` and a plain `str` are both a
finalized transcript text. -/
inductive EngineMessage where
  | audio (data : List Nat)
  | text (s : String)
deriving DecidableEq, Repr

/-- `LiveVoiceService._process_live_message` (lines 203–254): audio output
is forwarded to the client as an `audio_chunk` and, if that send succeeded,
the state becomes TALKING; text is handled as a final `assistant`
transcript fragment.  (An exception in the WebSocket send is caught by the
method's `except`, skipping the state update.) -/
def process_live_message (sid : String) (msg : EngineMessage) (tNow : Nat)
    (s : Svc) : Svc :=
  match lookupSession s.active_sessions sid with
  | none => s
  | some sd =>
      match msg with
      | EngineMessage.audio _ =>
          let r := sendJson sd.websocket "audio_chunk" "" s
          if r.2 then update_session_state sid VoiceSessionState.talking r.1
          else r.1
      | EngineMessage.text t => handle_transcript sid "assistant" t true tNow s

/-- `LiveVoiceService.send_audio_input` (lines 257–283): forward the audio
into the Live API connection; on the first chunk of an utterance
(`is_speaking` was false) set `is_speaking` and transition to PROCESSING. -/
def send_audio_input (sid : String) (s : Svc) : Svc :=
  match lookupSession s.active_sessions sid with
  | none => s
  | some sd =>
      match sd.live_session with
      | none => s
      | some h =>
          let s1 := { s with trace := s.trace ++ [Event.toEngine h "audio"] }
          if sd.is_speaking then s1
          else
            let s2 :=
              { s1 with
                active_sessions :=
                  setSessionData sid ({ sd with is_speaking := true })
                    s1.active_sessions }
            update_session_state sid VoiceSessionState.processing s2

/-- `LiveVoiceService.send_audio_stream_end` (lines 285–307): clears the
`is_speaking` flag when the session and its live connection exist. -/
def send_audio_stream_end (sid : String) (s : Svc) : Svc :=
  match lookupSession s.active_sessions sid with
  | none => s
  | some sd =>
      match sd.live_session with
      | none => s
      | some _ =>
          { s with
            active_sessions :=
              setSessionData sid ({ sd with is_speaking := false })
                s.active_sessions }

/-- `LiveVoiceService._cleanup_session` (lines 597–617): if the session id
is registered, close the stored client WebSocket if any (a failure is
swallowed), then delete the registry entry. -/
def cleanup_session (sid : String) (s : Svc) : Svc :=
  match lookupSession s.active_sessions sid with
  | none => s
  | some sd =>
      let s1 :=
        match sd.websocket with
        | some w => closeWs w s
        | none => s
      { s1 with active_sessions := removeSession sid s1.active_sessions }

/-- `LiveVoiceService.end_voice_session` (lines 557–595): if the session id
is registered, unconditionally set `state = ENDED` and `ended_at`, compute
`total_duration_seconds` when `connected_at` was set, and close the engine
connection if stored; in every case the `finally` block then runs
`_cleanup_session`.  The second component is the final value of the mutated
`VoiceSession` object (observable through outstanding references), `none`
when the id was absent. -/
def end_voice_session (sid : String) (tNow : Nat) (s : Svc) :
    Svc × Option VoiceSession :=
  match lookupSession s.active_sessions sid with
  | none => (cleanup_session sid s, none)
  | some sd =>
      let v1 := { sd.session with
        state := VoiceSessionState.ended, ended_at := some tNow }
      let v2 :=
        match v1.connected_at with
        | some c => { v1 with total_duration_seconds := (tNow : Int) - (c : Int) }
        | none => v1
      let sd2 : SessionData := { sd with session := v2 }
      let s1 :=
        { s with
          active_sessions := setSessionData sid sd2 s.active_sessions }
      let s2 :=
        match sd.live_connection with
        | some h => { s1 with trace := s1.trace ++ [Event.engineClosed h] }
        | none => s1
      (cleanup_session sid s2, some v2)

/-- `LiveVoiceService.create_voice_session` (lines 33–90): the voice and
language come from `user_profile.preferences` when the profile is present
and has preferences, otherwise from the arguments; a fresh registry entry
is stored with state CONNECTING and empty runtime fields.  The generated
`uuid` is passed in as `session_id`. -/
def create_voice_session (user_id : String) (user_profile : Option UserProfile)
    (problem_category : Option String) (voice_option language : String)
    (session_id : String) (tNow : Nat) (s : Svc) : Svc × VoiceSession :=
  let chosen :=
    match user_profile with
    | some p =>
        match p.preferences with
        | some prefs => (prefs.preferred_voice, prefs.language)
        | none => (voice_option, language)
    | none => (voice_option, language)
  let v : VoiceSession :=
    { session_id := session_id, user_id := user_id,
      problem_category := problem_category,
      state := VoiceSessionState.connecting,
      voice_option := chosen.1, language := chosen.2,
      created_at := tNow, connected_at := none, ended_at := none,
      total_duration_seconds := 0, transcript := [] }
  ({ s with active_sessions := s.active_sessions ++
      [(session_id,
        { session := v, user_profile := user_profile, live_session := none,
          live_connection := none, websocket := none, transcript := [],
          is_speaking := false, conversation_started := false })] }, v)

/-- `LiveVoiceService.get_session_info` (lines 397–408): read-only lookup. -/
def get_session_info (sid : String) (s : Svc) : Option VoiceSession :=
  (lookupSession s.active_sessions sid).map fun sd => sd.session

/-- `LiveVoiceService.start_live_conversation` (lines 92–176): if the
session id is registered, open the engine connection (`engineOk` says
whether `live_connection.__aenter__()` succeeds).  On success the handles
and the WebSocket are stored, the state becomes CONNECTED with
`connected_at` stamped, the listen-loop task is spawned, and the initial
greeting is sent into the engine connection with
`conversation_started = True`.  On failure the `except` arm runs
`_update_session_state(sid, ERROR)` — the WebSocket was never stored, so
that method's own `state_change` send fails and is swallowed, but the state
write to ERROR has happened — and `False` is returned. -/
def start_live_conversation (sid : String) (ws : Nat) (engineOk : Bool)
    (engineHandle : Nat) (tNow : Nat) (s : Svc) : Svc × Bool :=
  match lookupSession s.active_sessions sid with
  | none => (s, false)
  | some sd =>
      if engineOk then
        let sd1 := { sd with
          live_session := some engineHandle,
          live_connection := some engineHandle,
          websocket := some ws,
          session := { sd.session with
            state := VoiceSessionState.connected, connected_at := some tNow } }
        let s1 := { s with
          active_sessions := setSessionData sid sd1 s.active_sessions,
          spawnedLoops := s.spawnedLoops ++ [sid] }
        let s2 := { s1 with
          trace := s1.trace ++ [Event.toEngine engineHandle "greeting"],
          active_sessions :=
            setSessionData sid ({ sd1 with conversation_started := true })
              s1.active_sessions }
        (s2, true)
      else
        (update_session_state sid VoiceSessionState.error s, false)

/-- An inbound client WebSocket message as read by
`_handle_websocket_message` in `server/routers/voice.py`: the `type` string
and whether `data.audio` is present (for `audio_stream` messages). -/
structure ClientMessage where
  type : String
  hasAudio : Bool
deriving DecidableEq, Repr

/-- `_handle_websocket_message` (`server/routers/voice.py`, lines 232–335):
string dispatch on `message.get("type")`, mirroring the `if`/`elif` chain.
For `end_session` the handler first awaits `end_voice_session` — whose
`finally` cleanup closes the stored client WebSocket — and only then tries
to send the `session_ended` event on that same WebSocket. -/
def handle_websocket_message (ws : Nat) (sid : String) (msg : ClientMessage)
    (tNow : Nat) (s : Svc) : Svc :=
  if msg.type = "audio_stream" then
    if msg.hasAudio then send_audio_input sid s
    else (sendJson (some ws) "error" "No audio data provided" s).1
  else if msg.type = "audio_end" then
    send_audio_stream_end sid s
  else if msg.type = "start_speaking" then
    match lookupSession s.active_sessions sid with
    | none => s
    | some sd =>
        let s1 :=
          { s with
            active_sessions :=
              setSessionData sid ({ sd with is_speaking := true })
                s.active_sessions }
        (sendJson (some ws) "speaking_state" "true" s1).1
  else if msg.type = "stop_speaking" then
    match lookupSession s.active_sessions sid with
    | none => s
    | some sd =>
        let s1 :=
          { s with
            active_sessions :=
              setSessionData sid ({ sd with is_speaking := false })
                s.active_sessions }
        (sendJson (some ws) "speaking_state" "false" s1).1
  else if msg.type = "ping" then
    (sendJson (some ws) "pong" "" s).1
  else if msg.type = "get_transcript" then
    (sendJson (some ws) "transcript_history" "" s).1
  else if msg.type = "end_session" then
    let s1 := (end_voice_session sid tNow s).1
    (sendJson (some ws) "session_ended" "Voice session ended" s1).1
  else
    (sendJson (some ws) "error" ("Unknown message type: " ++ msg.type) s).1

/-- Outcome of the authentication preamble of the WebSocket endpoint:
no `token` query parameter, a token `verify_id_token` rejects
(`HTTPException`), or a verified user id. -/
inductive AuthInput where
  | noToken
  | badToken
  | user (uid : String)
deriving DecidableEq, Repr

/-- `voice_websocket_endpoint` (`server/routers/voice.py`, lines 118–229).
The client's behaviour is summarised by `msgs`, the inbound messages
received before the client disconnects (the `WebSocketDisconnect` that ends
the receive loop).  The authentication-rejection paths `return` before the
`try` block whose `finally` runs `end_voice_session`, so only the
post-authentication paths end the session.  `engineOk`/`engineHandle`
describe the engine-side connection attempt inside
`start_live_conversation`, `tConn` the clock at that attempt and `tEnd` the
clock for the remaining steps. -/
def voice_websocket_endpoint (ws : Nat) (sid : String) (auth : AuthInput)
    (engineOk : Bool) (engineHandle : Nat) (tConn : Nat)
    (msgs : List ClientMessage) (tEnd : Nat) (s : Svc) : Svc :=
  match auth with
  | AuthInput.noToken =>
      closeWs ws (sendJson (some ws) "error" "Authentication token required" s).1
  | AuthInput.badToken =>
      closeWs ws
        (sendJson (some ws) "error" "Invalid or expired authorization token" s).1
  | AuthInput.user uid =>
      match get_session_info sid s with
      | none =>
          closeWs ws
            (sendJson (some ws) "error" "Session not found or access denied" s).1
      | some v =>
          if v.user_id = uid then
            let r := start_live_conversation sid ws engineOk engineHandle tConn s
            if r.2 then
              let s2 := (sendJson (some ws) "connected" "" r.1).1
              let s3 :=
                msgs.foldl (fun acc m => handle_websocket_message ws sid m tEnd acc) s2
              (end_voice_session sid tEnd s3).1
            else
              let s2 :=
                closeWs ws
                  (sendJson (some ws) "error" "Failed to start voice conversation" r.1).1
              (end_voice_session sid tEnd s2).1
          else
            closeWs ws
              (sendJson (some ws) "error" "Session not found or access denied" s).1

theorem sendJson_active (ws : Option Nat) (ty d : String) (s : Svc) :
    ((sendJson ws ty d s).1).active_sessions = s.active_sessions := by
  cases ws with
  | none => rfl
  | some w =>
    by_cases hw : w ∈ s.closedWs <;> simp [sendJson, hw]

theorem sendJson_closed (ws : Option Nat) (ty d : String) (s : Svc) :
    ((sendJson ws ty d s).1).closedWs = s.closedWs := by
  cases ws with
  | none => rfl
  | some w =>
    by_cases hw : w ∈ s.closedWs <;> simp [sendJson, hw]

theorem sendJson_spawned (ws : Option Nat) (ty d : String) (s : Svc) :
    ((sendJson ws ty d s).1).spawnedLoops = s.spawnedLoops := by
  cases ws with
  | none => rfl
  | some w =>
    by_cases hw : w ∈ s.closedWs <;> simp [sendJson, hw]

theorem sendJson_ok (w : Nat) (ty d : String) (s : Svc) (hw : w ∉ s.closedWs) :
    sendJson (some w) ty d s =
      ({ s with trace := s.trace ++ [Event.sent w ty d] }, true) := by
  simp [sendJson, hw]

/-- `_update_session_state` overwrites exactly the `state` field of the
registered session (and touches no other registry entry data). -/
theorem lookup_update (sid : String) (st : VoiceSessionState) (s : Svc) :
    lookupSession (update_session_state sid st s).active_sessions sid =
      (lookupSession s.active_sessions sid).map
        (fun sd => { sd with session := { sd.session with state := st } }) := by
  unfold update_session_state
  cases h : lookupSession s.active_sessions sid with
  | none => simp [h]
  | some sd =>
    simp only [sendJson_active, lookupSession_set, h, Option.map_some']

theorem update_closed (sid : String) (st : VoiceSessionState) (s : Svc) :
    (update_session_state sid st s).closedWs = s.closedWs := by
  unfold update_session_state
  cases h : lookupSession s.active_sessions sid with
  | none => rfl
  | some sd => simp only [sendJson_closed]

theorem update_spawned (sid : String) (st : VoiceSessionState) (s : Svc) :
    (update_session_state sid st s).spawnedLoops = s.spawnedLoops := by
  unfold update_session_state
  cases h : lookupSession s.active_sessions sid with
  | none => rfl
  | some sd => simp only [sendJson_spawned]

/-- `_cleanup_session` always leaves the registry without the session id. -/
theorem cleanup_lookup (sid : String) (s : Svc) :
    lookupSession (cleanup_session sid s).active_sessions sid = none := by
  unfold cleanup_session
  cases h : lookupSession s.active_sessions sid with
  | none => exact h
  | some sd =>
    cases sd.websocket with
    | none => simp [lookupSession_remove]
    | some w => simp [lookupSession_remove]

theorem cleanup_absent (sid : String) (s : Svc)
    (h : lookupSession s.active_sessions sid = none) :
    cleanup_session sid s = s := by
  unfold cleanup_session
  simp [h]

/-- Every `end_voice_session` call removes the registry entry. -/
theorem end_removes (sid : String) (tNow : Nat) (s : Svc) :
    lookupSession (end_voice_session sid tNow s).1.active_sessions sid = none := by
  unfold end_voice_session
  cases h : lookupSession s.active_sessions sid with
  | none => simp [cleanup_lookup]
  | some sd =>
    cases hc : sd.live_connection with
    | none => simp [hc, cleanup_lookup]
    | some hdl => simp [hc, cleanup_lookup]

theorem end_of_absent (sid : String) (t : Nat) (s : Svc)
    (h : lookupSession s.active_sessions sid = none) :
    end_voice_session sid t s = (s, none) := by
  unfold end_voice_session
  simp [h, cleanup_absent sid s h]

/-- A freshly created session owned by `u1`, still CONNECTING; this is the
registry state right after `create_voice_session`. -/
def svcConnecting : Svc :=
  (create_voice_session "u1" none none "Puck" "en" "s1" 0 ⟨[], [], [], []⟩).1

/-- The registry state after the engine-side connection failed to open in
`start_live_conversation`: the session is still registered and its state
is ERROR.  This is exactly the state in which the router's `finally`
block subsequently calls `end_voice_session`. -/
def svcErrorRegistered : Svc :=
  (start_live_conversation "s1" 7 false 3 5 svcConnecting).1

/-- C1 is false on the code: a session whose state is the terminal value
ERROR (reached through an engine-open failure, which leaves the session
registered) undergoes a further state transition — `end_voice_session`
overwrites ERROR with ENDED unconditionally (lines 571–572 have no
"not already terminal" guard), so ENDED and ERROR are not mutually
exclusive over a session's lifetime. -/
theorem terminal_error_overwritten_by_end :
    (get_session_info "s1" svcErrorRegistered).map VoiceSession.state =
        some VoiceSessionState.error ∧
      ((end_voice_session "s1" 9 svcErrorRegistered).2.map VoiceSession.state) =
        some VoiceSessionState.ended := by
  constructor <;> rfl

/-- C1 (amended): state transitions can only happen while the session id is
registered.  Once the id is absent from the registry — which holds after
every `end_voice_session`/`_cleanup_session` path — every state-update
attempt (`_update_session_state`, `end_voice_session`,
`_handle_transcript`, `_process_live_message`) leaves the service and the
session unchanged; and every `end_voice_session` call removes the registry
entry, making all later attempts no-ops.  The guard is registry absence,
not the terminal state value: `end_voice_session` on a still-registered
ERROR session overwrites the state with ENDED. -/
theorem no_transition_after_removal (s : Svc) (sid : String)
    (st : VoiceSessionState) (t : Nat)
    (h : lookupSession s.active_sessions sid = none) :
    update_session_state sid st s = s ∧
    end_voice_session sid t s = (s, none) ∧
    (∀ role text fin, handle_transcript sid role text fin t s = s) ∧
    (∀ msg, process_live_message sid msg t s = s) ∧
    (∀ s' t', lookupSession (end_voice_session sid t' s').1.active_sessions sid
      = none) := by
  refine ⟨?_, end_of_absent sid t s h, ?_, ?_, fun s' t' => end_removes sid t' s'⟩
  · unfold update_session_state
    simp [h]
  · intro role text fin
    unfold handle_transcript
    simp [h]
  · intro msg
    unfold process_live_message
    simp [h]

theorem no_transition_after_removal_witness :
    update_session_state "gone" VoiceSessionState.talking ⟨[], [], [], []⟩ =
      ⟨[], [], [], []⟩ :=
  (no_transition_after_removal ⟨[], [], [], []⟩ "gone" VoiceSessionState.talking 0
    rfl).1

/-- C2: ending is idempotent.  The first `end_voice_session` call removes
the registry entry (its `finally` runs `_cleanup_session`), so a second
call finds nothing, mutates nothing, and returns without touching any
session object: the whole service state — hence also the ended session's
`state`, `ended_at` and `total_duration_seconds` — is exactly what the
first call left.  The same applies to sessions that reached ERROR through
the listen-loop error path, since that path also removes the entry. -/
theorem end_session_idempotent (s : Svc) (sid : String) (t1 t2 : Nat) :
    end_voice_session sid t2 (end_voice_session sid t1 s).1 =
      ((end_voice_session sid t1 s).1, none) :=
  end_of_absent sid t2 (end_voice_session sid t1 s).1 (end_removes sid t1 s)

theorem sendClose_spec (ws : Nat) (ty d : String) (s : Svc)
    (hw : ws ∉ s.closedWs) :
    closeWs ws (sendJson (some ws) ty d s).1 =
      { s with trace := s.trace ++ [Event.sent ws ty d, Event.wsClosed ws],
               closedWs := ws :: s.closedWs } := by
  rw [sendJson_ok ws ty d s hw]
  unfold closeWs
  simp [hw]

/-- C3: an attach attempt on an existing session by an authenticated
identity different from the session owner is rejected — the endpoint sends
an `error` event and closes the WebSocket (code 1008, reason
"Session not found or access denied") — and returns before the `try` block
whose `finally` ends sessions, so the registry (hence the session's state,
timestamps and transcript) is exactly as before. -/
theorem ownership_mismatch_rejected (ws : Nat) (sid uid : String)
    (engineOk : Bool) (hdl tConn tEnd : Nat) (msgs : List ClientMessage)
    (s : Svc) (v : VoiceSession)
    (hs : get_session_info sid s = some v)
    (hu : v.user_id ≠ uid)
    (hw : ws ∉ s.closedWs) :
    (voice_websocket_endpoint ws sid (AuthInput.user uid) engineOk hdl tConn
        msgs tEnd s).active_sessions = s.active_sessions ∧
    (voice_websocket_endpoint ws sid (AuthInput.user uid) engineOk hdl tConn
        msgs tEnd s).trace = s.trace ++
      [Event.sent ws "error" "Session not found or access denied",
       Event.wsClosed ws] ∧
    (voice_websocket_endpoint ws sid (AuthInput.user uid) engineOk hdl tConn
        msgs tEnd s).closedWs = ws :: s.closedWs := by
  simp only [voice_websocket_endpoint, hs]
  rw [if_neg hu, sendClose_spec ws _ _ s hw]
  exact ⟨rfl, rfl, rfl⟩

theorem ownership_mismatch_rejected_witness :
    (voice_websocket_endpoint 4 "s1" (AuthInput.user "u2") true 3 5 [] 9
      svcConnecting).active_sessions = svcConnecting.active_sessions :=
  (ownership_mismatch_rejected 4 "s1" "u2" true 3 5 9 [] svcConnecting
    ⟨"s1", "u1", none, VoiceSessionState.connecting, "Puck", "en", 0, none,
      none, 0, []⟩ rfl (by decide) (by decide)).1

/-- A session that has already completed its attach: registered, owned by
`u1`, state CONNECTED with `connected_at = 5`, engine handle `3` and
client WebSocket `7` stored. -/
def svcAlreadyConnected : Svc :=
  ⟨[("s2", ⟨⟨"s2", "u1", none, VoiceSessionState.connected, "Puck", "en", 0,
      some 5, none, 0, []⟩, none, some 3, some 3, some 7, [], false, true⟩)],
   [], ["s2"], []⟩

/-- C6 is false on the code: neither the endpoint nor
`start_live_conversation` checks that the session is in CONNECTING state.
An attach to a session that exists in CONNECTED state is not rejected —
`start_live_conversation` returns `True` — and it mutates the session,
overwriting `connected_at` (5 becomes 9) and the stored connection
handles. -/
theorem nonconnecting_attach_not_rejected :
    (get_session_info "s2" svcAlreadyConnected).map VoiceSession.state =
        some VoiceSessionState.connected ∧
      (start_live_conversation "s2" 8 true 4 9 svcAlreadyConnected).2 = true ∧
      (get_session_info "s2"
          (start_live_conversation "s2" 8 true 4 9 svcAlreadyConnected).1).map
          VoiceSession.connected_at = some (some 9) := by
  exact ⟨rfl, rfl, rfl⟩

/-- C6 (amended): the checked preconditions for bridge start are only that
the session exists and that the attaching caller's identity equals
`VoiceSession.user_id`; violating either closes the incoming connection
immediately after an `error` event and leaves the registry — hence every
session — untouched and available for a legitimate retry.  A CONNECTING
state is not required: an attach to an existing session in any state
proceeds (see the counterexample). -/
theorem start_checked_preconditions (ws : Nat) (sid uid : String)
    (engineOk : Bool) (hdl tConn tEnd : Nat) (msgs : List ClientMessage)
    (s : Svc)
    (h : get_session_info sid s = none ∨
      ∃ v, get_session_info sid s = some v ∧ v.user_id ≠ uid)
    (hw : ws ∉ s.closedWs) :
    (voice_websocket_endpoint ws sid (AuthInput.user uid) engineOk hdl tConn
        msgs tEnd s).active_sessions = s.active_sessions ∧
    (voice_websocket_endpoint ws sid (AuthInput.user uid) engineOk hdl tConn
        msgs tEnd s).trace = s.trace ++
      [Event.sent ws "error" "Session not found or access denied",
       Event.wsClosed ws] ∧
    (voice_websocket_endpoint ws sid (AuthInput.user uid) engineOk hdl tConn
        msgs tEnd s).closedWs = ws :: s.closedWs := by
  rcases h with h | ⟨v, hs, hu⟩
  · simp only [voice_websocket_endpoint, h]
    rw [sendClose_spec ws _ _ s hw]
    exact ⟨rfl, rfl, rfl⟩
  · simp only [voice_websocket_endpoint, hs]
    rw [if_neg hu, sendClose_spec ws _ _ s hw]
    exact ⟨rfl, rfl, rfl⟩

theorem start_checked_preconditions_witness :
    (voice_websocket_endpoint 4 "nosuch" (AuthInput.user "u1") true 3 5 [] 9
      ⟨[], [], [], []⟩).active_sessions = [] :=
  (start_checked_preconditions 4 "nosuch" "u1" true 3 5 9 [] ⟨[], [], [], []⟩
    (Or.inl rfl) (by decide)).1

/-- C5: when the engine-side connection fails to open
(`live_connection.__aenter__` raises), `start_live_conversation` returns
`False` through its `except` arm, which runs
`_update_session_state(sid, ERROR)`: the session's state is ERROR
immediately, `connected_at` is still unset (line 162 was never reached),
the WebSocket was never stored, and no listen-loop task was spawned
(line 165 was never reached). -/
theorem engine_open_failure (sid : String) (ws hdl t : Nat) (s : Svc)
    (sd : SessionData)
    (hs : lookupSession s.active_sessions sid = some sd)
    (hconn : sd.session.connected_at = none) :
    (start_live_conversation sid ws false hdl t s).2 = false ∧
    (lookupSession
        (start_live_conversation sid ws false hdl t s).1.active_sessions
        sid).map
        (fun x => (x.session.state, x.session.connected_at, x.websocket)) =
      some (VoiceSessionState.error, none, sd.websocket) ∧
    (start_live_conversation sid ws false hdl t s).1.spawnedLoops =
      s.spawnedLoops := by
  have h1 : start_live_conversation sid ws false hdl t s =
      (update_session_state sid VoiceSessionState.error s, false) := by
    simp [start_live_conversation, hs]
  rw [h1]
  refine ⟨rfl, ?_, update_spawned sid VoiceSessionState.error s⟩
  rw [lookup_update, hs]
  simp [hconn]

theorem engine_open_failure_witness :
    (start_live_conversation "s1" 7 false 3 5 svcConnecting).2 = false :=
  (engine_open_failure "s1" 7 3 5 svcConnecting
    ⟨⟨"s1", "u1", none, VoiceSessionState.connecting, "Puck", "en", 0, none,
      none, 0, []⟩, none, none, none, none, [], false, false⟩ rfl rfl).1

/-- C7: `_handle_transcript` is the only writer of
`VoiceSession.transcript`.  A non-final fragment is forwarded to the client
but never appended — the registry (hence every transcript) is untouched.
A final fragment appended to a registered session yields exactly the old
transcript plus one new entry at the end (the append happens at lines
433–440 before the client send, so it holds whether or not that send
succeeds): length grows by one and every prior entry is unchanged. -/
theorem transcript_append_only (sid role text : String) (t : Nat) (s : Svc) :
    (handle_transcript sid role text false t s).active_sessions =
      s.active_sessions ∧
    ∀ sd, lookupSession s.active_sessions sid = some sd →
      (lookupSession
          (handle_transcript sid role text true t s).active_sessions sid).map
          (fun x => x.session.transcript) =
        some (sd.session.transcript ++ [⟨role, text, t⟩]) := by
  constructor
  · unfold handle_transcript
    cases h : lookupSession s.active_sessions sid with
    | none => rfl
    | some sd =>
      simp [sendJson_active]
  · intro sd hsd
    unfold handle_transcript
    rw [hsd]
    cases hws : sd.websocket with
    | none =>
        simp [sendJson, hws, lookupSession_set, hsd]
    | some w =>
        by_cases hmem : w ∈ s.closedWs
        · simp [sendJson, hws, hmem, lookupSession_set, hsd]
        · by_cases hu : role = "user"
          · simp [sendJson, hws, hmem, hu, lookup_update, lookupSession_set,
              hsd]
          · by_cases ha : role = "assistant"
            · simp [sendJson, hws, hmem, hu, ha, lookup_update,
                lookupSession_set, hsd]
            · simp [sendJson, hws, hmem, hu, ha, lookupSession_set, hsd]

theorem transcript_append_only_witness :
    (lookupSession
        (handle_transcript "s2" "assistant" "hi" true 4
          svcAlreadyConnected).active_sessions "s2").map
        (fun x => x.session.transcript) =
      some [⟨"assistant", "hi", 4⟩] :=
  (transcript_append_only "s2" "assistant" "hi" 4 svcAlreadyConnected).2
    ⟨⟨"s2", "u1", none, VoiceSessionState.connected, "Puck", "en", 0, some 5,
      none, 0, []⟩, none, some 3, some 3, some 7, [], false, true⟩ rfl

/-- C8: routing of messages received from the engine connection of an
active session (registered, WebSocket attached and open).  Audio output is
forwarded to the client as an `audio_chunk` event and the state becomes
TALKING; a finalized transcript text is appended and moves the state to
LISTENING — `_process_live_message` always labels engine text with role
`assistant` (lines 237 and 251), and `_handle_transcript`'s role dispatch
(lines 454–457) sends a final `user`-role fragment to PROCESSING instead,
as the third conjunct shows. -/
theorem engine_message_routing (sid : String) (t : Nat) (s : Svc)
    (sd : SessionData) (w : Nat) (frag : String)
    (hs : lookupSession s.active_sessions sid = some sd)
    (hw : sd.websocket = some w) (hc : w ∉ s.closedWs) :
    (∀ d,
      (lookupSession
          (process_live_message sid (EngineMessage.audio d) t
            s).active_sessions sid).map (fun x => x.session.state) =
        some VoiceSessionState.talking ∧
      Event.sent w "audio_chunk" "" ∈
        (process_live_message sid (EngineMessage.audio d) t s).trace) ∧
    ((lookupSession
        (process_live_message sid (EngineMessage.text frag) t
          s).active_sessions sid).map
        (fun x => (x.session.state, x.session.transcript)) =
      some (VoiceSessionState.listening,
        sd.session.transcript ++ [⟨"assistant", frag, t⟩])) ∧
    ((lookupSession
        (handle_transcript sid "user" frag true t s).active_sessions sid).map
        (fun x => (x.session.state, x.session.transcript)) =
      some (VoiceSessionState.processing,
        sd.session.transcript ++ [⟨"user", frag, t⟩])) := by
  refine ⟨?_, ?_, ?_⟩
  · intro d
    constructor
    · simp [process_live_message, hs, hw, sendJson, hc, lookup_update]
    · simp [process_live_message, hs, hw, sendJson, hc, update_session_state,
        lookupSession_set]
  · simp [process_live_message, handle_transcript, hs, hw, sendJson, hc,
      lookup_update, lookupSession_set]
  · simp [handle_transcript, hs, hw, sendJson, hc, lookup_update,
      lookupSession_set]

theorem engine_message_routing_witness :
    (lookupSession
        (process_live_message "s2" (EngineMessage.text "hello") 4
          svcAlreadyConnected).active_sessions "s2").map
        (fun x => (x.session.state, x.session.transcript)) =
      some (VoiceSessionState.listening, [⟨"assistant", "hello", 4⟩]) :=
  (engine_message_routing "s2" 4 svcAlreadyConnected
    ⟨⟨"s2", "u1", none, VoiceSessionState.connected, "Puck", "en", 0, some 5,
      none, 0, []⟩, none, some 3, some 3, some 7, [], false, true⟩ 7 "hello"
    rfl rfl (by decide)).2.1

/-- C9: `create_voice_session` (lines 57–60) overwrites the `voice_option`
and `language` arguments with `user_profile.preferences.preferred_voice`
and `user_profile.preferences.language` whenever a profile with preferences
is supplied; the caller's arguments survive only when the profile or its
preferences are absent. -/
theorem profile_prefs_override (uid : String) (profile : Option UserProfile)
    (cat : Option String) (vo lang sid : String) (t : Nat) (s : Svc) :
    (∀ p prefs, profile = some p → p.preferences = some prefs →
      (create_voice_session uid profile cat vo lang sid t s).2.voice_option =
          prefs.preferred_voice ∧
        (create_voice_session uid profile cat vo lang sid t s).2.language =
          prefs.language) ∧
    ((profile.bind fun p => p.preferences) = none →
      (create_voice_session uid profile cat vo lang sid t s).2.voice_option =
          vo ∧
        (create_voice_session uid profile cat vo lang sid t s).2.language =
          lang) := by
  constructor
  · intro p prefs hp hprefs
    subst hp
    simp [create_voice_session, hprefs]
  · intro h
    cases hp : profile with
    | none => simp [create_voice_session, hp]
    | some p =>
      rw [hp] at h
      simp only [Option.some_bind] at h
      simp [create_voice_session, hp, h]

theorem profile_prefs_override_witness :
    (create_voice_session "u1"
        (some ⟨some "Asha", some ⟨"hi", "Kore", "Mitra"⟩⟩) none "Puck" "en"
        "s9" 0 ⟨[], [], [], []⟩).2.voice_option = "Kore" :=
  ((profile_prefs_override "u1"
      (some ⟨some "Asha", some ⟨"hi", "Kore", "Mitra"⟩⟩) none "Puck" "en" "s9"
      0 ⟨[], [], [], []⟩).1 ⟨some "Asha", some ⟨"hi", "Kore", "Mitra"⟩⟩
    ⟨"hi", "Kore", "Mitra"⟩ rfl rfl).1

/-- C10: an inbound client message whose `type` is none of the seven known
kinds falls through to the final `else` of `_handle_websocket_message`
(lines 324–328): the handler replies with an error naming the unknown type
and nothing else happens — the registry (state, transcript, every session)
is unchanged, no WebSocket is closed, and the session is not ended. -/
theorem unknown_message_type (ws : Nat) (sid : String) (msg : ClientMessage)
    (t : Nat) (s : Svc)
    (h : msg.type ∉ (["audio_stream", "audio_end", "start_speaking",
      "stop_speaking", "ping", "get_transcript", "end_session"] :
        List String))
    (hw : ws ∉ s.closedWs) :
    (handle_websocket_message ws sid msg t s).active_sessions =
        s.active_sessions ∧
      (handle_websocket_message ws sid msg t s).trace =
        s.trace ++
          [Event.sent ws "error" ("Unknown message type: " ++ msg.type)] ∧
      (handle_websocket_message ws sid msg t s).closedWs = s.closedWs := by
  simp only [List.mem_cons, List.mem_singleton, not_or] at h
  obtain ⟨h1, h2, h3, h4, h5, h6, h7, -⟩ := h
  simp [handle_websocket_message, h1, h2, h3, h4, h5, h6, h7, sendJson, hw]

theorem unknown_message_type_witness :
    (handle_websocket_message 7 "s2" ⟨"bogus", false⟩ 4
        svcAlreadyConnected).active_sessions =
      svcAlreadyConnected.active_sessions :=
  (unknown_message_type 7 "s2" ⟨"bogus", false⟩ 4 svcAlreadyConnected
    (by decide) (by decide)).1

/-- C4's guarantee fails in the code on the explicit `end_session` path:
the handler (voice.py lines 316–322) first awaits `end_voice_session`,
whose `finally` cleanup closes the client WebSocket, and only then tries to
send the `session_ended` event — on the WebSocket it just closed, so the
send raises and the client receives neither a `session_ended` nor an
`error` event before the server-side close.  The trace of handling
`end_session` on a connected session is exactly: engine connection closed,
then client WebSocket closed, with no event delivered to the client. -/
theorem end_session_closes_before_notification :
    (handle_websocket_message 7 "s2" ⟨"end_session", false⟩ 10
        svcAlreadyConnected).trace =
      [Event.engineClosed 3, Event.wsClosed 7] ∧
    Event.sent 7 "session_ended" "Voice session ended" ∉
      (handle_websocket_message 7 "s2" ⟨"end_session", false⟩ 10
        svcAlreadyConnected).trace := by
  exact ⟨rfl, by decide⟩
